import Mathlib

/-!
# The POSIX shim of Sulong (`posix.c`) and the `smul_i16` acceptance program

A shallow embedding of

* `projects/com.oracle.truffle.llvm.libraries.native/src/posix.c`: the macro `CALL`, the
  forty-four entry points `__sulong_posix_*` of the Linux branch, the macro `ERROR` and the
  entry points of the branch compiled when `__linux__` is not defined;
* `tests/com.oracle.truffle.llvm.tests.sulongcpp/cpp/builtin/arithmetic/arithmetic_smul_i16.c`:
  the function `main`.

The operating system is not part of the repository.  It enters the model as an oracle
(`OS`): the result and the `errno` every operation leaves are arbitrary, and every theorem
quantifies over them.
-/

set_option linter.unusedVariables false

namespace Sulong

/-! ## C integer and pointer types -/

/-- A C scalar type as far as conversions are concerned: its width in bits and whether it is
signed.  A value of the type is the mathematical integer it denotes; a pointer is its
address, an unsigned value. -/
structure CType where
  bits : Nat
  signed : Bool
  deriving DecidableEq, Repr

namespace CType

/-- The conversion `(type) v`: reduction modulo `2 ^ bits` into the range of the type
(two's complement for the signed types). -/
def cast (t : CType) (v : Int) : Int :=
  if t.signed then (v + 2 ^ (t.bits - 1)) % 2 ^ t.bits - 2 ^ (t.bits - 1)
  else v % 2 ^ t.bits

/-- The values the type can hold. -/
def InRange (t : CType) (v : Int) : Prop :=
  if t.signed then -(2 ^ (t.bits - 1)) ≤ v ∧ v < 2 ^ (t.bits - 1)
  else 0 ≤ v ∧ v < 2 ^ t.bits

instance (t : CType) (v : Int) : Decidable (t.InRange v) := by
  unfold InRange; exact inferInstance

/-! The widths below are those of the LP64 Linux ABI (x86-64, AArch64), the data model of
the hosts the Linux branch is built for; they come from the platform headers
(`<sys/types.h>`), not from the repository. -/

/-- The type `signed short`, 16 bits. -/
def short : CType := ⟨16, true⟩
/-- The type `int`, 32 bits. -/
def int : CType := ⟨32, true⟩
/-- The type `long`, 64 bits. -/
def long : CType := ⟨64, true⟩
/-- The type `ssize_t`, a signed 64-bit integer. -/
def ssize_t : CType := ⟨64, true⟩
/-- The type `off_t`, a signed 64-bit integer. -/
def off_t : CType := ⟨64, true⟩
/-- The type `uid_t`, an unsigned 32-bit integer. -/
def uid_t : CType := ⟨32, false⟩
/-- The type `gid_t`, an unsigned 32-bit integer. -/
def gid_t : CType := ⟨32, false⟩
/-- The type `void*`: a 64-bit address. -/
def void_ptr : CType := ⟨64, false⟩

end CType

/-- One POSIX operation applied to its arguments: what `name(__VA_ARGS__)` names inside
`CALL`, and equally a request made to the entry point `__sulong_posix_<name>`.  Every C
argument (integer, size, mode or address) is carried as its integer value. -/
inductive Call where
  | open (pathname flags mode : Int)
  | close (fd : Int)
  | read (fd buf count : Int)
  | write (fd buf count : Int)
  | readv (fd iov iovcnt : Int)
  | writev (fd iov iovcnt : Int)
  | dup (oldfd : Int)
  | dup2 (oldfd newfd : Int)
  | dup3 (oldfd newfd flags : Int)
  | fcntl (fd cmd arg : Int)
  | ioctl (fd request argp : Int)
  | stat (path statbuf : Int)
  | fstat (fd statbuf : Int)
  | lstat (path statbuf : Int)
  | sendfile (out_fd in_fd offset count : Int)
  | mmap (addr length prot flags fd offset : Int)
  | munmap (addr length : Int)
  | unlink (path : Int)
  | socket (domain type protocol : Int)
  | pipe (pipefd : Int)
  | pipe2 (pipefd flags : Int)
  | bind (sockfd addr addrlen : Int)
  | getsockname (sockfd addr addrlen : Int)
  | getsockopt (sockfd level optname optval optlen : Int)
  | setsockopt (sockfd level optname optval optlen : Int)
  | sendto (socket message length flags dest_addr dest_len : Int)
  | sendmsg (socket message flags : Int)
  | recvfrom (socket buffer length flags address address_len : Int)
  | recvmsg (socket message flags : Int)
  | listen (socket backlog : Int)
  | connect (socket address address_len : Int)
  | accept (socket address address_len : Int)
  | getuid
  | getgid
  | ftruncate (fildes length : Int)
  | lseek (fildes offset whence : Int)
  | setuid (uid : Int)
  | setgid (gid : Int)
  | geteuid
  | getegid
  | access (path amode : Int)
  | faccessat (fd path amode flag : Int)
  | rename (old new : Int)
  | renameat (oldfd old newfd new : Int)
  deriving DecidableEq, Repr

namespace Call

/-- The POSIX name of the operation; the entry point is `__sulong_posix_` followed by it. -/
def name : Call → String
  | .open .. => "open"
  | .close .. => "close"
  | .read .. => "read"
  | .write .. => "write"
  | .readv .. => "readv"
  | .writev .. => "writev"
  | .dup .. => "dup"
  | .dup2 .. => "dup2"
  | .dup3 .. => "dup3"
  | .fcntl .. => "fcntl"
  | .ioctl .. => "ioctl"
  | .stat .. => "stat"
  | .fstat .. => "fstat"
  | .lstat .. => "lstat"
  | .sendfile .. => "sendfile"
  | .mmap .. => "mmap"
  | .munmap .. => "munmap"
  | .unlink .. => "unlink"
  | .socket .. => "socket"
  | .pipe .. => "pipe"
  | .pipe2 .. => "pipe2"
  | .bind .. => "bind"
  | .getsockname .. => "getsockname"
  | .getsockopt .. => "getsockopt"
  | .setsockopt .. => "setsockopt"
  | .sendto .. => "sendto"
  | .sendmsg .. => "sendmsg"
  | .recvfrom .. => "recvfrom"
  | .recvmsg .. => "recvmsg"
  | .listen .. => "listen"
  | .connect .. => "connect"
  | .accept .. => "accept"
  | .getuid => "getuid"
  | .getgid => "getgid"
  | .ftruncate .. => "ftruncate"
  | .lseek .. => "lseek"
  | .setuid .. => "setuid"
  | .setgid .. => "setgid"
  | .geteuid => "geteuid"
  | .getegid => "getegid"
  | .access .. => "access"
  | .faccessat .. => "faccessat"
  | .rename .. => "rename"
  | .renameat .. => "renameat"

/-- Declared return type of the entry point `__sulong_posix_<name>`. -/
def retType : Call → CType
  | .open .. => CType.int
  | .close .. => CType.int
  | .read .. => CType.ssize_t
  | .write .. => CType.ssize_t
  | .readv .. => CType.ssize_t
  | .writev .. => CType.ssize_t
  | .dup .. => CType.int
  | .dup2 .. => CType.int
  | .dup3 .. => CType.int
  | .fcntl .. => CType.int
  | .ioctl .. => CType.int
  | .stat .. => CType.int
  | .fstat .. => CType.int
  | .lstat .. => CType.int
  | .sendfile .. => CType.ssize_t
  | .mmap .. => CType.void_ptr
  | .munmap .. => CType.int
  | .unlink .. => CType.int
  | .socket .. => CType.int
  | .pipe .. => CType.int
  | .pipe2 .. => CType.int
  | .bind .. => CType.int
  | .getsockname .. => CType.int
  | .getsockopt .. => CType.int
  | .setsockopt .. => CType.int
  | .sendto .. => CType.ssize_t
  | .sendmsg .. => CType.ssize_t
  | .recvfrom .. => CType.ssize_t
  | .recvmsg .. => CType.ssize_t
  | .listen .. => CType.int
  | .connect .. => CType.int
  | .accept .. => CType.int
  | .getuid => CType.int
  | .getgid => CType.int
  | .ftruncate .. => CType.int
  | .lseek .. => CType.off_t
  | .setuid .. => CType.int
  | .setgid .. => CType.int
  | .geteuid => CType.uid_t
  | .getegid => CType.gid_t
  | .access .. => CType.int
  | .faccessat .. => CType.int
  | .rename .. => CType.int
  | .renameat .. => CType.int

end Call

/-! ## The process state and the operating system -/

/-- Build configuration: what the preprocessor sees. -/
structure Build where
  /-- Whether `__linux__` is defined. -/
  linux : Bool
  /-- The value of `ENOSYS` in `<errno.h>` (38 on Linux, 78 on macOS, 89 on Solaris). -/
  ENOSYS : Int
  deriving DecidableEq, Repr

/-- The state a call runs in.  `trace` and `stderr` are ghost logs: the POSIX operations
invoked so far, in order, and the lines handed to `fprintf(stderr, ...)`.  `kernel` stands
for everything else the operating system and the process own (descriptor table, memory,
buffers). -/
structure World (κ : Type) where
  errno : Int
  kernel : κ
  trace : List Call
  stderr : List String
  deriving DecidableEq

/-- The operating system and the C library, as oracles.
`syscall c k e` is the outcome of the POSIX operation `c` started in state `k` with `errno = e`:
the value it returns, the value of `errno` when it returns, and the state it leaves.
`fprintf s k e` is the outcome of `fprintf(stderr, s)`: the `errno` it leaves and the state. -/
structure OS (κ : Type) where
  syscall : Call → κ → Int → Int × Int × κ
  fprintf : String → κ → Int → Int × κ

variable {κ : Type}

/-- The statement `type result = name(__VA_ARGS__);`: one invocation of the operation.  The
value it returns is converted to `type`, `errno` (an `int`) holds what the operation left. -/
def invoke (os : OS κ) (type : CType) (c : Call) (w : World κ) : Int × World κ :=
  let out := os.syscall c w.kernel w.errno
  (type.cast out.1,
   { errno := CType.int.cast out.2.1, kernel := out.2.2,
     trace := w.trace ++ [c], stderr := w.stderr })

/-- The macro `CALL(type, name, ...)` of lines 48 to 56:
```
int native_errno = errno;
type result = name(__VA_ARGS__);
if(result == (type) -1) { result = (type) (long) -errno; }
errno = native_errno;
return result;
``` -/
def CALL (os : OS κ) (type : CType) (c : Call) (w : World κ) : Int × World κ :=
  let native_errno := w.errno
  let r := invoke os type c w
  let result := r.1
  let result :=
    if result = type.cast (-1) then
      type.cast (CType.long.cast (CType.int.cast (-r.2.errno)))
    else result
  (result, { r.2 with errno := native_errno })

/-- The diagnostic of the macro `ERROR`. -/
def diagnostic : String := "Syscalls not supported on this OS.\n"

/-- The macro `ERROR()` of lines 294 to 297, in a function whose return type is `type`:
```
fprintf(stderr, "Syscalls not supported on this OS.\n");
return -ENOSYS;
```
The `int` value `-ENOSYS` is converted to the return type of the enclosing function. -/
def ERROR (b : Build) (os : OS κ) (type : CType) (w : World κ) : Int × World κ :=
  let out := os.fprintf diagnostic w.kernel w.errno
  (type.cast (CType.int.cast (-b.ENOSYS)),
   { errno := CType.int.cast out.1, kernel := out.2,
     trace := w.trace, stderr := w.stderr ++ [diagnostic] })

namespace Capable

/-- The C entry point is `int __sulong_posix_open(const char* pathname, int flags, mode_t mode)`. -/
def __sulong_posix_open (os : OS κ) (pathname flags mode : Int) : World κ → Int × World κ :=
  CALL os CType.int (.open pathname flags mode)

/-- The C entry point is `int __sulong_posix_close(int fd)`. -/
def __sulong_posix_close (os : OS κ) (fd : Int) : World κ → Int × World κ :=
  CALL os CType.int (.close fd)

/-- The C entry point is `ssize_t __sulong_posix_read(int fd, void* buf, size_t count)`. -/
def __sulong_posix_read (os : OS κ) (fd buf count : Int) : World κ → Int × World κ :=
  CALL os CType.ssize_t (.read fd buf count)

/-- The C entry point is `ssize_t __sulong_posix_write(int fd, const void* buf, size_t count)`. -/
def __sulong_posix_write (os : OS κ) (fd buf count : Int) : World κ → Int × World κ :=
  CALL os CType.ssize_t (.write fd buf count)

/-- The C entry point is `ssize_t __sulong_posix_readv(int fd, const struct iovec* iov, int iovcnt)`. -/
def __sulong_posix_readv (os : OS κ) (fd iov iovcnt : Int) : World κ → Int × World κ :=
  CALL os CType.ssize_t (.readv fd iov iovcnt)

/-- The C entry point is `ssize_t __sulong_posix_writev(int fd, const struct iovec* iov, int iovcnt)`. -/
def __sulong_posix_writev (os : OS κ) (fd iov iovcnt : Int) : World κ → Int × World κ :=
  CALL os CType.ssize_t (.writev fd iov iovcnt)

/-- The C entry point is `int __sulong_posix_dup(int oldfd)`. -/
def __sulong_posix_dup (os : OS κ) (oldfd : Int) : World κ → Int × World κ :=
  CALL os CType.int (.dup oldfd)

/-- The C entry point is `int __sulong_posix_dup2(int oldfd, int newfd)`. -/
def __sulong_posix_dup2 (os : OS κ) (oldfd newfd : Int) : World κ → Int × World κ :=
  CALL os CType.int (.dup2 oldfd newfd)

/-- The C entry point is `int __sulong_posix_dup3(int oldfd, int newfd, int flags)`. -/
def __sulong_posix_dup3 (b : Build) (os : OS κ) (oldfd newfd flags : Int) : World κ → Int × World κ :=
  if b.linux then
    CALL os CType.int (.dup3 oldfd newfd flags)
  else
    CALL os CType.int (.dup2 oldfd newfd)

/-- The C entry point is `int __sulong_posix_fcntl(int fd, int cmd, void* arg)`. -/
def __sulong_posix_fcntl (os : OS κ) (fd cmd arg : Int) : World κ → Int × World κ :=
  CALL os CType.int (.fcntl fd cmd arg)

/-- The C entry point is `int __sulong_posix_ioctl(int fd, unsigned long request, void* argp)`. -/
def __sulong_posix_ioctl (os : OS κ) (fd request argp : Int) : World κ → Int × World κ :=
  CALL os CType.int (.ioctl fd request argp)

/-- The C entry point is `int __sulong_posix_stat(const char* path, struct stat* statbuf)`. -/
def __sulong_posix_stat (os : OS κ) (path statbuf : Int) : World κ → Int × World κ :=
  CALL os CType.int (.stat path statbuf)

/-- The C entry point is `int __sulong_posix_fstat(int fd, struct stat* statbuf)`. -/
def __sulong_posix_fstat (os : OS κ) (fd statbuf : Int) : World κ → Int × World κ :=
  CALL os CType.int (.fstat fd statbuf)

/-- The C entry point is `int __sulong_posix_lstat(const char* path, struct stat* statbuf)`. -/
def __sulong_posix_lstat (os : OS κ) (path statbuf : Int) : World κ → Int × World κ :=
  CALL os CType.int (.lstat path statbuf)

/-- The C entry point is `ssize_t __sulong_posix_sendfile(int out_fd, int in_fd, off_t* offset, size_t count)`. -/
def __sulong_posix_sendfile (b : Build) (os : OS κ) (out_fd in_fd offset count : Int) : World κ → Int × World κ :=
  if b.linux then
    CALL os CType.ssize_t (.sendfile out_fd in_fd offset count)
  else
    fun w => (CType.ssize_t.cast (CType.int.cast (-b.ENOSYS)), w)

/-- The C entry point is `void* __sulong_posix_mmap(void* addr, size_t length, int prot, int flags, int fd, off_t offset)`. -/
def __sulong_posix_mmap (os : OS κ) (addr length prot flags fd offset : Int) : World κ → Int × World κ :=
  CALL os CType.void_ptr (.mmap addr length prot flags fd offset)

/-- The C entry point is `int __sulong_posix_munmap(void* addr, size_t length)`. -/
def __sulong_posix_munmap (os : OS κ) (addr length : Int) : World κ → Int × World κ :=
  CALL os CType.int (.munmap addr length)

/-- The C entry point is `int __sulong_posix_unlink(const char * path)`. -/
def __sulong_posix_unlink (os : OS κ) (path : Int) : World κ → Int × World κ :=
  CALL os CType.int (.unlink path)

/-- The C entry point is `int __sulong_posix_socket(int domain, int type, int protocol)`. -/
def __sulong_posix_socket (os : OS κ) (domain type protocol : Int) : World κ → Int × World κ :=
  CALL os CType.int (.socket domain type protocol)

/-- The C entry point is `int __sulong_posix_pipe(int [2] pipefd)`. -/
def __sulong_posix_pipe (os : OS κ) (pipefd : Int) : World κ → Int × World κ :=
  CALL os CType.int (.pipe pipefd)

/-- The C entry point is `int __sulong_posix_pipe2(int [2] pipefd, int flags)`. -/
def __sulong_posix_pipe2 (b : Build) (os : OS κ) (pipefd flags : Int) : World κ → Int × World κ :=
  if b.linux then
    CALL os CType.int (.pipe2 pipefd flags)
  else
    CALL os CType.int (.pipe pipefd)

/-- The C entry point is `int __sulong_posix_bind(int sockfd, const struct sockaddr* addr, socklen_t addrlen)`. -/
def __sulong_posix_bind (os : OS κ) (sockfd addr addrlen : Int) : World κ → Int × World κ :=
  CALL os CType.int (.bind sockfd addr addrlen)

/-- The C entry point is `int __sulong_posix_getsockname(int sockfd, struct sockaddr* addr, socklen_t* addrlen)`. -/
def __sulong_posix_getsockname (os : OS κ) (sockfd addr addrlen : Int) : World κ → Int × World κ :=
  CALL os CType.int (.getsockname sockfd addr addrlen)

/-- The C entry point is `int __sulong_posix_getsockopt(int sockfd, int level, int optname, void* optval, socklen_t* optlen)`. -/
def __sulong_posix_getsockopt (os : OS κ) (sockfd level optname optval optlen : Int) : World κ → Int × World κ :=
  CALL os CType.int (.getsockopt sockfd level optname optval optlen)

/-- The C entry point is `int __sulong_posix_setsockopt(int sockfd, int level, int optname, const void* optval, socklen_t optlen)`. -/
def __sulong_posix_setsockopt (os : OS κ) (sockfd level optname optval optlen : Int) : World κ → Int × World κ :=
  CALL os CType.int (.setsockopt sockfd level optname optval optlen)

/-- The C entry point is `ssize_t __sulong_posix_sendto(int socket, const void* message, size_t length, int flags, const struct sockaddr* dest_addr, socklen_t dest_len)`. -/
def __sulong_posix_sendto (os : OS κ) (socket message length flags dest_addr dest_len : Int) : World κ → Int × World κ :=
  CALL os CType.ssize_t (.sendto socket message length flags dest_addr dest_len)

/-- The C entry point is `ssize_t __sulong_posix_sendmsg(int socket, const struct msghdr* message, int flags)`. -/
def __sulong_posix_sendmsg (os : OS κ) (socket message flags : Int) : World κ → Int × World κ :=
  CALL os CType.ssize_t (.sendmsg socket message flags)

/-- The C entry point is `ssize_t __sulong_posix_recvfrom(int socket, void* restrict buffer, size_t length, int flags, struct sockaddr* restrict address, socklen_t* restrict address_len)`. -/
def __sulong_posix_recvfrom (os : OS κ) (socket buffer length flags address address_len : Int) : World κ → Int × World κ :=
  CALL os CType.ssize_t (.recvfrom socket buffer length flags address address_len)

/-- The C entry point is `ssize_t __sulong_posix_recvmsg(int socket, struct msghdr* message, int flags)`. -/
def __sulong_posix_recvmsg (os : OS κ) (socket message flags : Int) : World κ → Int × World κ :=
  CALL os CType.ssize_t (.recvmsg socket message flags)

/-- The C entry point is `int __sulong_posix_listen(int socket, int backlog)`. -/
def __sulong_posix_listen (os : OS κ) (socket backlog : Int) : World κ → Int × World κ :=
  CALL os CType.int (.listen socket backlog)

/-- The C entry point is `int __sulong_posix_connect(int socket, const struct sockaddr* address, socklen_t address_len)`. -/
def __sulong_posix_connect (os : OS κ) (socket address address_len : Int) : World κ → Int × World κ :=
  CALL os CType.int (.connect socket address address_len)

/-- The C entry point is `int __sulong_posix_accept(int socket, struct sockaddr* restrict address, socklen_t* restrict address_len)`. -/
def __sulong_posix_accept (os : OS κ) (socket address address_len : Int) : World κ → Int × World κ :=
  CALL os CType.int (.accept socket address address_len)

/-- The C entry point is `int __sulong_posix_getuid(void)`. -/
def __sulong_posix_getuid (os : OS κ) : World κ → Int × World κ :=
  CALL os CType.int (.getuid)

/-- The C entry point is `int __sulong_posix_getgid(void)`. -/
def __sulong_posix_getgid (os : OS κ) : World κ → Int × World κ :=
  CALL os CType.int (.getgid)

/-- The C entry point is `int __sulong_posix_ftruncate(int fildes, off_t length)`. -/
def __sulong_posix_ftruncate (os : OS κ) (fildes length : Int) : World κ → Int × World κ :=
  CALL os CType.int (.ftruncate fildes length)

/-- The C entry point is `off_t __sulong_posix_lseek(int fildes, off_t offset, int whence)`. -/
def __sulong_posix_lseek (os : OS κ) (fildes offset whence : Int) : World κ → Int × World κ :=
  CALL os CType.off_t (.lseek fildes offset whence)

/-- The C entry point is `int __sulong_posix_setuid(uid_t uid)`. -/
def __sulong_posix_setuid (os : OS κ) (uid : Int) : World κ → Int × World κ :=
  CALL os CType.int (.setuid uid)

/-- The C entry point is `int __sulong_posix_setgid(gid_t gid)`. -/
def __sulong_posix_setgid (os : OS κ) (gid : Int) : World κ → Int × World κ :=
  CALL os CType.int (.setgid gid)

/-- The C entry point is `uid_t __sulong_posix_geteuid(void)`. -/
def __sulong_posix_geteuid (os : OS κ) : World κ → Int × World κ :=
  CALL os CType.uid_t (.geteuid)

/-- The C entry point is `gid_t __sulong_posix_getegid(void)`. -/
def __sulong_posix_getegid (os : OS κ) : World κ → Int × World κ :=
  CALL os CType.gid_t (.getegid)

/-- The C entry point is `int __sulong_posix_access(const char* path, int amode)`. -/
def __sulong_posix_access (os : OS κ) (path amode : Int) : World κ → Int × World κ :=
  CALL os CType.int (.access path amode)

/-- The C entry point is `int __sulong_posix_faccessat(int fd, const char* path, int amode, int flag)`. -/
def __sulong_posix_faccessat (os : OS κ) (fd path amode flag : Int) : World κ → Int × World κ :=
  CALL os CType.int (.faccessat fd path amode flag)

/-- The C entry point is `int __sulong_posix_rename(const char* old, const char* new)`. -/
def __sulong_posix_rename (os : OS κ) (old new : Int) : World κ → Int × World κ :=
  CALL os CType.int (.rename old new)

/-- The C entry point is `int __sulong_posix_renameat(int oldfd, const char* old, int newfd, const char* new)`. -/
def __sulong_posix_renameat (os : OS κ) (oldfd old newfd new : Int) : World κ → Int × World κ :=
  CALL os CType.int (.renameat oldfd old newfd new)

/-- The Linux branch of the file as one function of the request. -/
def dispatch (b : Build) (os : OS κ) : Call → World κ → Int × World κ
  | .open pathname flags mode => __sulong_posix_open os pathname flags mode
  | .close fd => __sulong_posix_close os fd
  | .read fd buf count => __sulong_posix_read os fd buf count
  | .write fd buf count => __sulong_posix_write os fd buf count
  | .readv fd iov iovcnt => __sulong_posix_readv os fd iov iovcnt
  | .writev fd iov iovcnt => __sulong_posix_writev os fd iov iovcnt
  | .dup oldfd => __sulong_posix_dup os oldfd
  | .dup2 oldfd newfd => __sulong_posix_dup2 os oldfd newfd
  | .dup3 oldfd newfd flags => __sulong_posix_dup3 b os oldfd newfd flags
  | .fcntl fd cmd arg => __sulong_posix_fcntl os fd cmd arg
  | .ioctl fd request argp => __sulong_posix_ioctl os fd request argp
  | .stat path statbuf => __sulong_posix_stat os path statbuf
  | .fstat fd statbuf => __sulong_posix_fstat os fd statbuf
  | .lstat path statbuf => __sulong_posix_lstat os path statbuf
  | .sendfile out_fd in_fd offset count => __sulong_posix_sendfile b os out_fd in_fd offset count
  | .mmap addr length prot flags fd offset => __sulong_posix_mmap os addr length prot flags fd offset
  | .munmap addr length => __sulong_posix_munmap os addr length
  | .unlink path => __sulong_posix_unlink os path
  | .socket domain type protocol => __sulong_posix_socket os domain type protocol
  | .pipe pipefd => __sulong_posix_pipe os pipefd
  | .pipe2 pipefd flags => __sulong_posix_pipe2 b os pipefd flags
  | .bind sockfd addr addrlen => __sulong_posix_bind os sockfd addr addrlen
  | .getsockname sockfd addr addrlen => __sulong_posix_getsockname os sockfd addr addrlen
  | .getsockopt sockfd level optname optval optlen => __sulong_posix_getsockopt os sockfd level optname optval optlen
  | .setsockopt sockfd level optname optval optlen => __sulong_posix_setsockopt os sockfd level optname optval optlen
  | .sendto socket message length flags dest_addr dest_len => __sulong_posix_sendto os socket message length flags dest_addr dest_len
  | .sendmsg socket message flags => __sulong_posix_sendmsg os socket message flags
  | .recvfrom socket buffer length flags address address_len => __sulong_posix_recvfrom os socket buffer length flags address address_len
  | .recvmsg socket message flags => __sulong_posix_recvmsg os socket message flags
  | .listen socket backlog => __sulong_posix_listen os socket backlog
  | .connect socket address address_len => __sulong_posix_connect os socket address address_len
  | .accept socket address address_len => __sulong_posix_accept os socket address address_len
  | .getuid => __sulong_posix_getuid os
  | .getgid => __sulong_posix_getgid os
  | .ftruncate fildes length => __sulong_posix_ftruncate os fildes length
  | .lseek fildes offset whence => __sulong_posix_lseek os fildes offset whence
  | .setuid uid => __sulong_posix_setuid os uid
  | .setgid gid => __sulong_posix_setgid os gid
  | .geteuid => __sulong_posix_geteuid os
  | .getegid => __sulong_posix_getegid os
  | .access path amode => __sulong_posix_access os path amode
  | .faccessat fd path amode flag => __sulong_posix_faccessat os fd path amode flag
  | .rename old new => __sulong_posix_rename os old new
  | .renameat oldfd old newfd new => __sulong_posix_renameat os oldfd old newfd new

end Capable

namespace Stub

/-- The C entry point is `int __sulong_posix_open(const char* pathname, int flags, mode_t mode)`. -/
def __sulong_posix_open (b : Build) (os : OS κ) (pathname flags mode : Int) : World κ → Int × World κ :=
  ERROR b os CType.int

/-- The C entry point is `int __sulong_posix_close(int fd)`. -/
def __sulong_posix_close (b : Build) (os : OS κ) (fd : Int) : World κ → Int × World κ :=
  ERROR b os CType.int

/-- The C entry point is `ssize_t __sulong_posix_read(int fd, void* buf, size_t count)`. -/
def __sulong_posix_read (b : Build) (os : OS κ) (fd buf count : Int) : World κ → Int × World κ :=
  ERROR b os CType.ssize_t

/-- The C entry point is `ssize_t __sulong_posix_write(int fd, const void* buf, size_t count)`. -/
def __sulong_posix_write (b : Build) (os : OS κ) (fd buf count : Int) : World κ → Int × World κ :=
  ERROR b os CType.ssize_t

/-- The C entry point is `ssize_t __sulong_posix_readv(int fd, const struct iovec* iov, int iovcnt)`. -/
def __sulong_posix_readv (b : Build) (os : OS κ) (fd iov iovcnt : Int) : World κ → Int × World κ :=
  ERROR b os CType.ssize_t

/-- The C entry point is `ssize_t __sulong_posix_writev(int fd, const struct iovec* iov, int iovcnt)`. -/
def __sulong_posix_writev (b : Build) (os : OS κ) (fd iov iovcnt : Int) : World κ → Int × World κ :=
  ERROR b os CType.ssize_t

/-- The C entry point is `int __sulong_posix_dup(int oldfd)`. -/
def __sulong_posix_dup (b : Build) (os : OS κ) (oldfd : Int) : World κ → Int × World κ :=
  ERROR b os CType.int

/-- The C entry point is `int __sulong_posix_dup2(int oldfd, int newfd)`. -/
def __sulong_posix_dup2 (b : Build) (os : OS κ) (oldfd newfd : Int) : World κ → Int × World κ :=
  ERROR b os CType.int

/-- The C entry point is `int __sulong_posix_dup3(int oldfd, int newfd, int flags)`. -/
def __sulong_posix_dup3 (b : Build) (os : OS κ) (oldfd newfd flags : Int) : World κ → Int × World κ :=
  ERROR b os CType.int

/-- The C entry point is `int __sulong_posix_fcntl(int fd, int cmd, void* arg)`. -/
def __sulong_posix_fcntl (b : Build) (os : OS κ) (fd cmd arg : Int) : World κ → Int × World κ :=
  ERROR b os CType.int

/-- The C entry point is `int __sulong_posix_ioctl(int fd, unsigned long request, void* argp)`. -/
def __sulong_posix_ioctl (b : Build) (os : OS κ) (fd request argp : Int) : World κ → Int × World κ :=
  ERROR b os CType.int

/-- The C entry point is `int __sulong_posix_stat(const char* path, struct stat* statbuf)`. -/
def __sulong_posix_stat (b : Build) (os : OS κ) (path statbuf : Int) : World κ → Int × World κ :=
  ERROR b os CType.int

/-- The C entry point is `int __sulong_posix_fstat(int fd, struct stat* statbuf)`. -/
def __sulong_posix_fstat (b : Build) (os : OS κ) (fd statbuf : Int) : World κ → Int × World κ :=
  ERROR b os CType.int

/-- The C entry point is `int __sulong_posix_lstat(const char* path, struct stat* statbuf)`. -/
def __sulong_posix_lstat (b : Build) (os : OS κ) (path statbuf : Int) : World κ → Int × World κ :=
  ERROR b os CType.int

/-- The C entry point is `ssize_t __sulong_posix_sendfile(int out_fd, int in_fd, off_t* offset, size_t count)`. -/
def __sulong_posix_sendfile (b : Build) (os : OS κ) (out_fd in_fd offset count : Int) : World κ → Int × World κ :=
  ERROR b os CType.ssize_t

/-- The C entry point is `void* __sulong_posix_mmap(void* addr, size_t length, int prot, int flags, int fd, off_t offset)`. -/
def __sulong_posix_mmap (b : Build) (os : OS κ) (addr length prot flags fd offset : Int) : World κ → Int × World κ :=
  ERROR b os CType.void_ptr

/-- The C entry point is `int __sulong_posix_munmap(void* addr, size_t length)`. -/
def __sulong_posix_munmap (b : Build) (os : OS κ) (addr length : Int) : World κ → Int × World κ :=
  ERROR b os CType.int

/-- The C entry point is `int __sulong_posix_unlink(const char * path)`. -/
def __sulong_posix_unlink (b : Build) (os : OS κ) (path : Int) : World κ → Int × World κ :=
  ERROR b os CType.int

/-- The C entry point is `int __sulong_posix_socket(int domain, int type, int protocol)`. -/
def __sulong_posix_socket (b : Build) (os : OS κ) (domain type protocol : Int) : World κ → Int × World κ :=
  ERROR b os CType.int

/-- The C entry point is `int __sulong_posix_pipe(int [2] pipefd)`. -/
def __sulong_posix_pipe (b : Build) (os : OS κ) (pipefd : Int) : World κ → Int × World κ :=
  ERROR b os CType.int

/-- The C entry point is `int __sulong_posix_bind(int sockfd, const struct sockaddr* addr, socklen_t addrlen)`. -/
def __sulong_posix_bind (b : Build) (os : OS κ) (sockfd addr addrlen : Int) : World κ → Int × World κ :=
  ERROR b os CType.int

/-- The C entry point is `int __sulong_posix_getsockname(int sockfd, struct sockaddr* addr, socklen_t* addrlen)`. -/
def __sulong_posix_getsockname (b : Build) (os : OS κ) (sockfd addr addrlen : Int) : World κ → Int × World κ :=
  ERROR b os CType.int

/-- The C entry point is `int __sulong_posix_getsockopt(int sockfd, int level, int optname, void* optval, socklen_t* optlen)`. -/
def __sulong_posix_getsockopt (b : Build) (os : OS κ) (sockfd level optname optval optlen : Int) : World κ → Int × World κ :=
  ERROR b os CType.int

/-- The C entry point is `int __sulong_posix_setsockopt(int sockfd, int level, int optname, const void* optval, socklen_t optlen)`. -/
def __sulong_posix_setsockopt (b : Build) (os : OS κ) (sockfd level optname optval optlen : Int) : World κ → Int × World κ :=
  ERROR b os CType.int

/-- The C entry point is `ssize_t __sulong_posix_sendto(int socket, const void* message, size_t length, int flags, const struct sockaddr* dest_addr, socklen_t dest_len)`. -/
def __sulong_posix_sendto (b : Build) (os : OS κ) (socket message length flags dest_addr dest_len : Int) : World κ → Int × World κ :=
  ERROR b os CType.ssize_t

/-- The C entry point is `ssize_t __sulong_posix_sendmsg(int socket, const struct msghdr* message, int flags)`. -/
def __sulong_posix_sendmsg (b : Build) (os : OS κ) (socket message flags : Int) : World κ → Int × World κ :=
  ERROR b os CType.ssize_t

/-- The C entry point is `ssize_t __sulong_posix_recvfrom(int socket, void* restrict buffer, size_t length, int flags, struct sockaddr* restrict address, socklen_t* restrict address_len)`. -/
def __sulong_posix_recvfrom (b : Build) (os : OS κ) (socket buffer length flags address address_len : Int) : World κ → Int × World κ :=
  ERROR b os CType.ssize_t

/-- The C entry point is `ssize_t __sulong_posix_recvmsg(int socket, struct msghdr* message, int flags)`. -/
def __sulong_posix_recvmsg (b : Build) (os : OS κ) (socket message flags : Int) : World κ → Int × World κ :=
  ERROR b os CType.ssize_t

/-- The C entry point is `int __sulong_posix_listen(int socket, int backlog)`. -/
def __sulong_posix_listen (b : Build) (os : OS κ) (socket backlog : Int) : World κ → Int × World κ :=
  ERROR b os CType.int

/-- The C entry point is `int __sulong_posix_connect(int socket, const struct sockaddr* address, socklen_t address_len)`. -/
def __sulong_posix_connect (b : Build) (os : OS κ) (socket address address_len : Int) : World κ → Int × World κ :=
  ERROR b os CType.int

/-- The C entry point is `int __sulong_posix_getuid(void)`. -/
def __sulong_posix_getuid (b : Build) (os : OS κ) : World κ → Int × World κ :=
  ERROR b os CType.int

/-- The C entry point is `int __sulong_posix_getgid(void)`. -/
def __sulong_posix_getgid (b : Build) (os : OS κ) : World κ → Int × World κ :=
  ERROR b os CType.int

/-- The C entry point is `off_t __sulong_posix_lseek(int fildes, off_t offset, int whence)`. -/
def __sulong_posix_lseek (b : Build) (os : OS κ) (fildes offset whence : Int) : World κ → Int × World κ :=
  ERROR b os CType.off_t

/-- The C entry point is `int __sulong_posix_setuid(uid_t uid)`. -/
def __sulong_posix_setuid (b : Build) (os : OS κ) (uid : Int) : World κ → Int × World κ :=
  ERROR b os CType.int

/-- The C entry point is `int __sulong_posix_setgid(gid_t gid)`. -/
def __sulong_posix_setgid (b : Build) (os : OS κ) (gid : Int) : World κ → Int × World κ :=
  ERROR b os CType.int

/-- The C entry point is `uid_t __sulong_posix_geteuid(void)`. -/
def __sulong_posix_geteuid (b : Build) (os : OS κ) : World κ → Int × World κ :=
  ERROR b os CType.uid_t

/-- The C entry point is `gid_t __sulong_posix_getegid(void)`. -/
def __sulong_posix_getegid (b : Build) (os : OS κ) : World κ → Int × World κ :=
  ERROR b os CType.gid_t

/-- The C entry point is `int __sulong_posix_access(const char* path, int amode)`. -/
def __sulong_posix_access (b : Build) (os : OS κ) (path amode : Int) : World κ → Int × World κ :=
  ERROR b os CType.int

/-- The C entry point is `int __sulong_posix_faccessat(int fd, const char* path, int amode, int flag)`. -/
def __sulong_posix_faccessat (b : Build) (os : OS κ) (fd path amode flag : Int) : World κ → Int × World κ :=
  ERROR b os CType.int

/-- The C entry point is `int __sulong_posix_rename(const char* old, const char* new)`. -/
def __sulong_posix_rename (b : Build) (os : OS κ) (old new : Int) : World κ → Int × World κ :=
  ERROR b os CType.int

/-- The C entry point is `int __sulong_posix_renameat(int oldfd, const char* old, int newfd, const char* new)`. -/
def __sulong_posix_renameat (b : Build) (os : OS κ) (oldfd old newfd new : Int) : World κ → Int × World κ :=
  ERROR b os CType.int

/-- The non-Linux branch of the file as one function of the request; `none` where the branch
defines no entry point of that name, so that a caller of it does not link. -/
def dispatch (b : Build) (os : OS κ) : Call → World κ → Option (Int × World κ)
  | .open pathname flags mode => fun w => some (__sulong_posix_open b os pathname flags mode w)
  | .close fd => fun w => some (__sulong_posix_close b os fd w)
  | .read fd buf count => fun w => some (__sulong_posix_read b os fd buf count w)
  | .write fd buf count => fun w => some (__sulong_posix_write b os fd buf count w)
  | .readv fd iov iovcnt => fun w => some (__sulong_posix_readv b os fd iov iovcnt w)
  | .writev fd iov iovcnt => fun w => some (__sulong_posix_writev b os fd iov iovcnt w)
  | .dup oldfd => fun w => some (__sulong_posix_dup b os oldfd w)
  | .dup2 oldfd newfd => fun w => some (__sulong_posix_dup2 b os oldfd newfd w)
  | .dup3 oldfd newfd flags => fun w => some (__sulong_posix_dup3 b os oldfd newfd flags w)
  | .fcntl fd cmd arg => fun w => some (__sulong_posix_fcntl b os fd cmd arg w)
  | .ioctl fd request argp => fun w => some (__sulong_posix_ioctl b os fd request argp w)
  | .stat path statbuf => fun w => some (__sulong_posix_stat b os path statbuf w)
  | .fstat fd statbuf => fun w => some (__sulong_posix_fstat b os fd statbuf w)
  | .lstat path statbuf => fun w => some (__sulong_posix_lstat b os path statbuf w)
  | .sendfile out_fd in_fd offset count => fun w => some (__sulong_posix_sendfile b os out_fd in_fd offset count w)
  | .mmap addr length prot flags fd offset => fun w => some (__sulong_posix_mmap b os addr length prot flags fd offset w)
  | .munmap addr length => fun w => some (__sulong_posix_munmap b os addr length w)
  | .unlink path => fun w => some (__sulong_posix_unlink b os path w)
  | .socket domain type protocol => fun w => some (__sulong_posix_socket b os domain type protocol w)
  | .pipe pipefd => fun w => some (__sulong_posix_pipe b os pipefd w)
  | .pipe2 .. => fun _ => none
  | .bind sockfd addr addrlen => fun w => some (__sulong_posix_bind b os sockfd addr addrlen w)
  | .getsockname sockfd addr addrlen => fun w => some (__sulong_posix_getsockname b os sockfd addr addrlen w)
  | .getsockopt sockfd level optname optval optlen => fun w => some (__sulong_posix_getsockopt b os sockfd level optname optval optlen w)
  | .setsockopt sockfd level optname optval optlen => fun w => some (__sulong_posix_setsockopt b os sockfd level optname optval optlen w)
  | .sendto socket message length flags dest_addr dest_len => fun w => some (__sulong_posix_sendto b os socket message length flags dest_addr dest_len w)
  | .sendmsg socket message flags => fun w => some (__sulong_posix_sendmsg b os socket message flags w)
  | .recvfrom socket buffer length flags address address_len => fun w => some (__sulong_posix_recvfrom b os socket buffer length flags address address_len w)
  | .recvmsg socket message flags => fun w => some (__sulong_posix_recvmsg b os socket message flags w)
  | .listen socket backlog => fun w => some (__sulong_posix_listen b os socket backlog w)
  | .connect socket address address_len => fun w => some (__sulong_posix_connect b os socket address address_len w)
  | .accept .. => fun _ => none
  | .getuid => fun w => some (__sulong_posix_getuid b os w)
  | .getgid => fun w => some (__sulong_posix_getgid b os w)
  | .ftruncate .. => fun _ => none
  | .lseek fildes offset whence => fun w => some (__sulong_posix_lseek b os fildes offset whence w)
  | .setuid uid => fun w => some (__sulong_posix_setuid b os uid w)
  | .setgid gid => fun w => some (__sulong_posix_setgid b os gid w)
  | .geteuid => fun w => some (__sulong_posix_geteuid b os w)
  | .getegid => fun w => some (__sulong_posix_getegid b os w)
  | .access path amode => fun w => some (__sulong_posix_access b os path amode w)
  | .faccessat fd path amode flag => fun w => some (__sulong_posix_faccessat b os fd path amode flag w)
  | .rename old new => fun w => some (__sulong_posix_rename b os old new w)
  | .renameat oldfd old newfd new => fun w => some (__sulong_posix_renameat b os oldfd old newfd new w)

end Stub

/-- The whole file under a build configuration: the outer `#ifdef __linux__` of line 44
selects the Linux branch, its `#else` of line 290 the other one. -/
def posix (b : Build) (os : OS κ) (req : Call) (w : World κ) : Option (Int × World κ) :=
  if b.linux then some (Capable.dispatch b os req w) else Stub.dispatch b os req w

/-- Run a sequence of requests against the Linux branch, threading the state. -/
def runAll (b : Build) (os : OS κ) : List Call → World κ → World κ
  | [], w => w
  | req :: rest, w => runAll b os rest (Capable.dispatch b os req w).2

/-- Names of the C types that occur in the prototypes of the entry points. -/
inductive Ty where
  | int | const_char_ptr | mode_t | ssize_t | void_ptr | size_t | const_void_ptr | const_iovec_ptr
  | unsigned_long | stat_ptr | off_t_ptr | off_t | int_array2 | const_sockaddr_ptr | socklen_t | sockaddr_ptr
  | socklen_t_ptr | const_msghdr_ptr | void_ptr_restrict | sockaddr_ptr_restrict | socklen_t_ptr_restrict | msghdr_ptr | uid_t | gid_t
  deriving DecidableEq, Repr

/-- Prototype of an entry point `__sulong_posix_<name>`: name, return type, parameter types. -/
structure Decl where
  name : String
  ret : Ty
  params : List Ty
  deriving DecidableEq, Repr

/-- Prototypes defined by the Linux branch (lines 58 to 288), in file order. -/
def capableDecls : List Decl :=
  [ ⟨"open", .int, [.const_char_ptr, .int, .mode_t]⟩,
    ⟨"close", .int, [.int]⟩,
    ⟨"read", .ssize_t, [.int, .void_ptr, .size_t]⟩,
    ⟨"write", .ssize_t, [.int, .const_void_ptr, .size_t]⟩,
    ⟨"readv", .ssize_t, [.int, .const_iovec_ptr, .int]⟩,
    ⟨"writev", .ssize_t, [.int, .const_iovec_ptr, .int]⟩,
    ⟨"dup", .int, [.int]⟩,
    ⟨"dup2", .int, [.int, .int]⟩,
    ⟨"dup3", .int, [.int, .int, .int]⟩,
    ⟨"fcntl", .int, [.int, .int, .void_ptr]⟩,
    ⟨"ioctl", .int, [.int, .unsigned_long, .void_ptr]⟩,
    ⟨"stat", .int, [.const_char_ptr, .stat_ptr]⟩,
    ⟨"fstat", .int, [.int, .stat_ptr]⟩,
    ⟨"lstat", .int, [.const_char_ptr, .stat_ptr]⟩,
    ⟨"sendfile", .ssize_t, [.int, .int, .off_t_ptr, .size_t]⟩,
    ⟨"mmap", .void_ptr, [.void_ptr, .size_t, .int, .int, .int, .off_t]⟩,
    ⟨"munmap", .int, [.void_ptr, .size_t]⟩,
    ⟨"unlink", .int, [.const_char_ptr]⟩,
    ⟨"socket", .int, [.int, .int, .int]⟩,
    ⟨"pipe", .int, [.int_array2]⟩,
    ⟨"pipe2", .int, [.int_array2, .int]⟩,
    ⟨"bind", .int, [.int, .const_sockaddr_ptr, .socklen_t]⟩,
    ⟨"getsockname", .int, [.int, .sockaddr_ptr, .socklen_t_ptr]⟩,
    ⟨"getsockopt", .int, [.int, .int, .int, .void_ptr, .socklen_t_ptr]⟩,
    ⟨"setsockopt", .int, [.int, .int, .int, .const_void_ptr, .socklen_t]⟩,
    ⟨"sendto", .ssize_t, [.int, .const_void_ptr, .size_t, .int, .const_sockaddr_ptr, .socklen_t]⟩,
    ⟨"sendmsg", .ssize_t, [.int, .const_msghdr_ptr, .int]⟩,
    ⟨"recvfrom", .ssize_t, [.int, .void_ptr_restrict, .size_t, .int, .sockaddr_ptr_restrict, .socklen_t_ptr_restrict]⟩,
    ⟨"recvmsg", .ssize_t, [.int, .msghdr_ptr, .int]⟩,
    ⟨"listen", .int, [.int, .int]⟩,
    ⟨"connect", .int, [.int, .const_sockaddr_ptr, .socklen_t]⟩,
    ⟨"accept", .int, [.int, .sockaddr_ptr_restrict, .socklen_t_ptr_restrict]⟩,
    ⟨"getuid", .int, []⟩,
    ⟨"getgid", .int, []⟩,
    ⟨"ftruncate", .int, [.int, .off_t]⟩,
    ⟨"lseek", .off_t, [.int, .off_t, .int]⟩,
    ⟨"setuid", .int, [.uid_t]⟩,
    ⟨"setgid", .int, [.gid_t]⟩,
    ⟨"geteuid", .uid_t, []⟩,
    ⟨"getegid", .gid_t, []⟩,
    ⟨"access", .int, [.const_char_ptr, .int]⟩,
    ⟨"faccessat", .int, [.int, .const_char_ptr, .int, .int]⟩,
    ⟨"rename", .int, [.const_char_ptr, .const_char_ptr]⟩,
    ⟨"renameat", .int, [.int, .const_char_ptr, .int, .const_char_ptr]⟩ ]

/-- Prototypes defined by the non-Linux branch (lines 299 to 502), in file order. -/
def stubDecls : List Decl :=
  [ ⟨"open", .int, [.const_char_ptr, .int, .mode_t]⟩,
    ⟨"close", .int, [.int]⟩,
    ⟨"read", .ssize_t, [.int, .void_ptr, .size_t]⟩,
    ⟨"write", .ssize_t, [.int, .const_void_ptr, .size_t]⟩,
    ⟨"readv", .ssize_t, [.int, .const_iovec_ptr, .int]⟩,
    ⟨"writev", .ssize_t, [.int, .const_iovec_ptr, .int]⟩,
    ⟨"dup", .int, [.int]⟩,
    ⟨"dup2", .int, [.int, .int]⟩,
    ⟨"dup3", .int, [.int, .int, .int]⟩,
    ⟨"fcntl", .int, [.int, .int, .void_ptr]⟩,
    ⟨"ioctl", .int, [.int, .unsigned_long, .void_ptr]⟩,
    ⟨"stat", .int, [.const_char_ptr, .stat_ptr]⟩,
    ⟨"fstat", .int, [.int, .stat_ptr]⟩,
    ⟨"lstat", .int, [.const_char_ptr, .stat_ptr]⟩,
    ⟨"sendfile", .ssize_t, [.int, .int, .off_t_ptr, .size_t]⟩,
    ⟨"mmap", .void_ptr, [.void_ptr, .size_t, .int, .int, .int, .off_t]⟩,
    ⟨"munmap", .int, [.void_ptr, .size_t]⟩,
    ⟨"unlink", .int, [.const_char_ptr]⟩,
    ⟨"socket", .int, [.int, .int, .int]⟩,
    ⟨"pipe", .int, [.int_array2]⟩,
    ⟨"bind", .int, [.int, .const_sockaddr_ptr, .socklen_t]⟩,
    ⟨"getsockname", .int, [.int, .sockaddr_ptr, .socklen_t_ptr]⟩,
    ⟨"getsockopt", .int, [.int, .int, .int, .void_ptr, .socklen_t_ptr]⟩,
    ⟨"setsockopt", .int, [.int, .int, .int, .const_void_ptr, .socklen_t]⟩,
    ⟨"sendto", .ssize_t, [.int, .const_void_ptr, .size_t, .int, .const_sockaddr_ptr, .socklen_t]⟩,
    ⟨"sendmsg", .ssize_t, [.int, .const_msghdr_ptr, .int]⟩,
    ⟨"recvfrom", .ssize_t, [.int, .void_ptr_restrict, .size_t, .int, .sockaddr_ptr_restrict, .socklen_t_ptr_restrict]⟩,
    ⟨"recvmsg", .ssize_t, [.int, .msghdr_ptr, .int]⟩,
    ⟨"listen", .int, [.int, .int]⟩,
    ⟨"connect", .int, [.int, .const_sockaddr_ptr, .socklen_t]⟩,
    ⟨"getuid", .int, []⟩,
    ⟨"getgid", .int, []⟩,
    ⟨"lseek", .off_t, [.int, .off_t, .int]⟩,
    ⟨"setuid", .int, [.uid_t]⟩,
    ⟨"setgid", .int, [.gid_t]⟩,
    ⟨"geteuid", .uid_t, []⟩,
    ⟨"getegid", .gid_t, []⟩,
    ⟨"access", .int, [.const_char_ptr, .int]⟩,
    ⟨"faccessat", .int, [.int, .const_char_ptr, .int, .int]⟩,
    ⟨"rename", .int, [.const_char_ptr, .const_char_ptr]⟩,
    ⟨"renameat", .int, [.int, .const_char_ptr, .int, .const_char_ptr]⟩ ]

/-! ## The acceptance program `arithmetic_smul_i16.c` -/

/-- The function `main` of the acceptance program, over the intrinsic it exercises:
`__builtin_mul_overflow a b` is the flag the call `__builtin_mul_overflow(a, b, &res)` returns.
The product the intrinsic stores in `res` is never read by `main`, and `argc`, `argv` are
unused; each operand is written as the conversion `(signed short) 0x...` of the source. -/
def main (__builtin_mul_overflow : Int → Int → Bool) : Int :=
  if __builtin_mul_overflow (CType.short.cast 0x0) (CType.short.cast 0x0) then -1 else
  if __builtin_mul_overflow (CType.short.cast 0x0) (CType.short.cast 0x7FFF) then -1 else
  if __builtin_mul_overflow (CType.short.cast 0x0) (CType.short.cast 0x8000) then -1 else
  if __builtin_mul_overflow (CType.short.cast 0x1) (CType.short.cast 0x7FFF) then -1 else
  if __builtin_mul_overflow (CType.short.cast 0x1) (CType.short.cast 0x8000) then -1 else
  if __builtin_mul_overflow (CType.short.cast 0x2) (CType.short.cast 0x3FFF) then -1 else
  if __builtin_mul_overflow (CType.short.cast 0x2) (CType.short.cast 0xC000) then -1 else
  if !__builtin_mul_overflow (CType.short.cast 0x2) (CType.short.cast 0x7FFF) then -1 else
  if !__builtin_mul_overflow (CType.short.cast 0x2) (CType.short.cast 0x8000) then -1 else
  if __builtin_mul_overflow (CType.short.cast 0x0FFF) (CType.short.cast 0x8) then -1 else
  if !__builtin_mul_overflow (CType.short.cast 0x1000) (CType.short.cast 0x8) then -1 else
  if __builtin_mul_overflow (CType.short.cast 0x7FFF) (CType.short.cast 0x0) then -1 else
  if __builtin_mul_overflow (CType.short.cast 0x7FFF) (CType.short.cast 0x1) then -1 else
  if !__builtin_mul_overflow (CType.short.cast 0x7FFF) (CType.short.cast 0x2) then -1 else
  if !__builtin_mul_overflow (CType.short.cast 0x7FFF) (CType.short.cast 0x7FFF) then -1 else
  if !__builtin_mul_overflow (CType.short.cast 0x7FFF) (CType.short.cast 0x8000) then -1 else
  if __builtin_mul_overflow (CType.short.cast 0x8000) (CType.short.cast 0x0) then -1 else
  if __builtin_mul_overflow (CType.short.cast 0x8000) (CType.short.cast 0x1) then -1 else
  if !__builtin_mul_overflow (CType.short.cast 0x8000) (CType.short.cast 0x2) then -1 else
  if !__builtin_mul_overflow (CType.short.cast 0x8000) (CType.short.cast 0x7FFF) then -1 else
  if !__builtin_mul_overflow (CType.short.cast 0x8000) (CType.short.cast 0x8000) then -1 else
  if __builtin_mul_overflow (CType.short.cast 0xFFFF) (CType.short.cast 0x0) then -1 else
  if __builtin_mul_overflow (CType.short.cast 0xFFFF) (CType.short.cast 0x1) then -1 else
  if __builtin_mul_overflow (CType.short.cast 0xFFFF) (CType.short.cast 0xFFFF) then -1 else
  0

/-- One check of `main`: the two operands as written in the source, and whether the program
expects the overflow flag (`if (!...) return -1;`) or its absence (`if (...) return -1;`). -/
structure Check where
  a : Int
  b : Int
  expectOverflow : Bool
  deriving DecidableEq, Repr

/-- The checks of `main`, in program order. -/
def checks : List Check :=
  [ ⟨0x0, 0x0, false⟩,
    ⟨0x0, 0x7FFF, false⟩,
    ⟨0x0, 0x8000, false⟩,
    ⟨0x1, 0x7FFF, false⟩,
    ⟨0x1, 0x8000, false⟩,
    ⟨0x2, 0x3FFF, false⟩,
    ⟨0x2, 0xC000, false⟩,
    ⟨0x2, 0x7FFF, true⟩,
    ⟨0x2, 0x8000, true⟩,
    ⟨0x0FFF, 0x8, false⟩,
    ⟨0x1000, 0x8, true⟩,
    ⟨0x7FFF, 0x0, false⟩,
    ⟨0x7FFF, 0x1, false⟩,
    ⟨0x7FFF, 0x2, true⟩,
    ⟨0x7FFF, 0x7FFF, true⟩,
    ⟨0x7FFF, 0x8000, true⟩,
    ⟨0x8000, 0x0, false⟩,
    ⟨0x8000, 0x1, false⟩,
    ⟨0x8000, 0x2, true⟩,
    ⟨0x8000, 0x7FFF, true⟩,
    ⟨0x8000, 0x8000, true⟩,
    ⟨0xFFFF, 0x0, false⟩,
    ⟨0xFFFF, 0x1, false⟩,
    ⟨0xFFFF, 0xFFFF, false⟩ ]

/-- Reference semantics of the 16-bit signed multiply intrinsic, in the words of the
specification: overflow is reported exactly when the exact product of the operands, each
read as a two's-complement 16-bit value, lies outside `[-32768, 32767]`. -/
def refMulOverflow (a b : Int) : Bool :=
  decide (a * b < -32768 ∨ 32767 < a * b)

/-- Whether an intrinsic answers a check as the program expects, on the converted operands. -/
def Check.agrees (ovf : Int → Int → Bool) (c : Check) : Bool :=
  ovf (CType.short.cast c.a) (CType.short.cast c.b) == c.expectOverflow

/-! ## Vocabulary of the properties -/

/-- The value `result` holds right after `type result = name(__VA_ARGS__);` in the entry point
of `req`: what the operation returned, in the return type of the entry point. -/
def rawResult (os : OS κ) (req : Call) (w : World κ) : Int :=
  req.retType.cast (os.syscall req w.kernel w.errno).1

/-- The value of `errno` when the operation of `req` has returned. -/
def rawErrno (os : OS κ) (req : Call) (w : World κ) : Int :=
  CType.int.cast (os.syscall req w.kernel w.errno).2.1

/-- The encoding of a raw result and the `errno` that came with it, in the words of the
specification: if the raw result equals the failure sentinel of the return type, the
negated error state as a value of that type; otherwise the raw result unchanged. -/
def encode (type : CType) (raw e : Int) : Int :=
  if raw = type.cast (-1) then type.cast (CType.long.cast (CType.int.cast (-e))) else raw

/-- What happened in the operating system: success with a value, or failure with a cause. -/
inductive Outcome where
  | success (value : Int)
  | failure (cause : Int)
  deriving DecidableEq, Repr

/-- The outcome of the operation of `req`: it failed when it returned the sentinel `-1`. -/
def outcome (os : OS κ) (req : Call) (w : World κ) : Outcome :=
  if rawResult os req w = -1 then .failure (rawErrno os req w)
  else .success (rawResult os req w)

/-- The decision a caller makes from a returned value alone: negative is failure, the
magnitude its cause; non-negative is success. -/
def decode (res : Int) : Outcome :=
  if res < 0 then .failure (-res) else .success res

/-! ## Concrete builds, states and operating systems -/

/-- A Linux build. -/
def linuxBuild : Build := ⟨true, 38⟩

/-- A build for a host that is not Linux, with the `ENOSYS` of macOS. -/
def otherBuild : Build := ⟨false, 78⟩

/-- A state with the given `errno`, before any operation or output. -/
def World.start (e : Int) : World Unit := ⟨e, (), [], []⟩

/-- An operating system every operation of which returns `ret` and leaves `errno = err`;
`fprintf` leaves `errno = ferr`, or untouched when `ferr` is `none`. -/
def sampleOS (ret err : Int) (ferr : Option Int) : OS Unit :=
  ⟨fun _ _ _ => (ret, err, ()), fun _ _ e => (ferr.getD e, ())⟩

/-- The checks of `main` run in order from a table: `0` when an intrinsic answers all of them
as expected, `-1` at the first it does not. -/
def runChecks (ovf : Int → Int → Bool) : List Check → Int
  | [] => 0
  | c :: cs => if c.agrees ovf then runChecks ovf cs else -1

/-! ## Conversions -/

theorem cast_int_range (v : Int) : -2147483648 ≤ CType.int.cast v ∧ CType.int.cast v ≤ 2147483647 := by
  simp only [CType.cast, CType.int]
  norm_num
  omega

theorem retType_cases (req : Call) :
    req.retType = ⟨32, true⟩ ∨ req.retType = ⟨64, true⟩ ∨
    (req.retType = ⟨32, false⟩ ∧ (req = .geteuid ∨ req = .getegid)) ∨
    (req.retType = ⟨64, false⟩ ∧ ∃ addr length prot flags fd offset,
      req = .mmap addr length prot flags fd offset) := by
  cases req <;> simp [Call.retType, CType.int, CType.ssize_t, CType.off_t, CType.uid_t,
    CType.gid_t, CType.void_ptr]

/-! ## The Linux branch is `CALL` at every entry point -/

theorem dispatch_eq_CALL (b : Build) (hb : b.linux = true) (os : OS κ) (req : Call)
    (w : World κ) : Capable.dispatch b os req w = CALL os req.retType req w := by
  cases req <;> simp [Capable.dispatch, Call.retType, hb,
    Capable.__sulong_posix_open, Capable.__sulong_posix_close, Capable.__sulong_posix_read,
    Capable.__sulong_posix_write, Capable.__sulong_posix_readv, Capable.__sulong_posix_writev,
    Capable.__sulong_posix_dup, Capable.__sulong_posix_dup2, Capable.__sulong_posix_dup3,
    Capable.__sulong_posix_fcntl, Capable.__sulong_posix_ioctl, Capable.__sulong_posix_stat,
    Capable.__sulong_posix_fstat, Capable.__sulong_posix_lstat,
    Capable.__sulong_posix_sendfile, Capable.__sulong_posix_mmap,
    Capable.__sulong_posix_munmap, Capable.__sulong_posix_unlink,
    Capable.__sulong_posix_socket, Capable.__sulong_posix_pipe, Capable.__sulong_posix_pipe2,
    Capable.__sulong_posix_bind, Capable.__sulong_posix_getsockname,
    Capable.__sulong_posix_getsockopt, Capable.__sulong_posix_setsockopt,
    Capable.__sulong_posix_sendto, Capable.__sulong_posix_sendmsg,
    Capable.__sulong_posix_recvfrom, Capable.__sulong_posix_recvmsg,
    Capable.__sulong_posix_listen, Capable.__sulong_posix_connect,
    Capable.__sulong_posix_accept, Capable.__sulong_posix_getuid,
    Capable.__sulong_posix_getgid, Capable.__sulong_posix_ftruncate,
    Capable.__sulong_posix_lseek, Capable.__sulong_posix_setuid,
    Capable.__sulong_posix_setgid, Capable.__sulong_posix_geteuid,
    Capable.__sulong_posix_getegid, Capable.__sulong_posix_access,
    Capable.__sulong_posix_faccessat, Capable.__sulong_posix_rename,
    Capable.__sulong_posix_renameat]

theorem CALL_fst (os : OS κ) (t : CType) (c : Call) (w : World κ) :
    (CALL os t c w).1 =
      encode t (t.cast (os.syscall c w.kernel w.errno).1)
        (CType.int.cast (os.syscall c w.kernel w.errno).2.1) := rfl

theorem CALL_errno (os : OS κ) (t : CType) (c : Call) (w : World κ) :
    (CALL os t c w).2.errno = w.errno := rfl

theorem CALL_trace (os : OS κ) (t : CType) (c : Call) (w : World κ) :
    (CALL os t c w).2.trace = w.trace ++ [c] := rfl

theorem CALL_kernel (os : OS κ) (t : CType) (c : Call) (w : World κ) :
    (CALL os t c w).2.kernel = (os.syscall c w.kernel w.errno).2.2 := rfl

theorem CALL_stderr (os : OS κ) (t : CType) (c : Call) (w : World κ) :
    (CALL os t c w).2.stderr = w.stderr := rfl

theorem dispatch_fst (b : Build) (hb : b.linux = true) (os : OS κ) (req : Call) (w : World κ) :
    (Capable.dispatch b os req w).1 =
      encode req.retType (rawResult os req w) (rawErrno os req w) := by
  rw [dispatch_eq_CALL b hb, CALL_fst]; rfl

theorem cast_s32 (v : Int) :
    CType.cast ⟨32, true⟩ v = (v + 2147483648) % 4294967296 - 2147483648 := by
  simp [CType.cast]

theorem cast_s64 (v : Int) :
    CType.cast ⟨64, true⟩ v
      = (v + 9223372036854775808) % 18446744073709551616 - 9223372036854775808 := by
  simp [CType.cast]

theorem cast_u32 (v : Int) : CType.cast ⟨32, false⟩ v = v % 4294967296 := by
  simp [CType.cast]

theorem cast_u64 (v : Int) : CType.cast ⟨64, false⟩ v = v % 18446744073709551616 := by
  simp [CType.cast]

theorem rawErrno_range (os : OS κ) (req : Call) (w : World κ) :
    -2147483648 ≤ rawErrno os req w ∧ rawErrno os req w ≤ 2147483647 :=
  cast_int_range _

theorem encode_sentinel (t : CType) (e : Int) :
    encode t (t.cast (-1)) e = t.cast (CType.long.cast (CType.int.cast (-e))) := by
  simp [encode]

theorem encode_other (t : CType) (r e : Int) (h : r ≠ t.cast (-1)) : encode t r e = r := by
  simp [encode, h]

/-- The negated error state of a failure with a positive cause, in each of the four shapes a
return type has. -/
theorem negated_errno (e : Int) (h1 : 1 ≤ e) (h2 : e ≤ 2147483647) :
    CType.cast ⟨32, true⟩ (CType.long.cast (CType.int.cast (-e))) = -e ∧
    CType.cast ⟨64, true⟩ (CType.long.cast (CType.int.cast (-e))) = -e ∧
    CType.cast ⟨32, false⟩ (CType.long.cast (CType.int.cast (-e))) = 4294967296 - e ∧
    CType.cast ⟨64, false⟩ (CType.long.cast (CType.int.cast (-e)))
      = 18446744073709551616 - e := by
  have hi : CType.int.cast (-e) = -e := by
    rw [CType.int, cast_s32]; omega
  have hl : CType.long.cast (-e) = -e := by
    rw [CType.long, cast_s64]; omega
  rw [hi, hl, cast_s32, cast_s64, cast_u32, cast_u64]
  omega

theorem signed_cases (req : Call) (hs : req.retType.signed = true) :
    req.retType = ⟨32, true⟩ ∨ req.retType = ⟨64, true⟩ := by
  rcases retType_cases req with h | h | ⟨h, _⟩ | ⟨h, _⟩
  · exact Or.inl h
  · exact Or.inr h
  · rw [h] at hs; simp at hs
  · rw [h] at hs; simp at hs

theorem signed_sentinel (req : Call) (hs : req.retType.signed = true) :
    req.retType.cast (-1) = -1 := by
  rcases signed_cases req hs with h | h
  · rw [h, cast_s32]; omega
  · rw [h, cast_s64]; omega

theorem signed_negated (req : Call) (hs : req.retType.signed = true) (e : Int) (h1 : 1 ≤ e)
    (h2 : e ≤ 2147483647) :
    req.retType.cast (CType.long.cast (CType.int.cast (-e))) = -e := by
  rcases signed_cases req hs with h | h
  · rw [h]; exact (negated_errno e h1 h2).1
  · rw [h]; exact (negated_errno e h1 h2).2.1

/-! ## The claims about the Linux branch -/

/-- C1, as amended. In the Linux branch, when the operation returns the failure sentinel and
leaves `errno = e` with `1 ≤ e ≤ 4095`: every entry point with a signed return type (`int`,
`ssize_t`, `off_t`) returns a strictly negative value of magnitude `e`; `geteuid` and
`getegid`, whose return types `uid_t` and `gid_t` are unsigned, return `2 ^ 32 - e`, which is
positive and is `-e` only when reinterpreted as a 32-bit signed integer. -/
theorem failure_returns_negated_errno (b : Build) (hb : b.linux = true) (os : OS κ)
    (req : Call) (w : World κ) (e : Int)
    (hfail : rawResult os req w = req.retType.cast (-1)) (he : rawErrno os req w = e)
    (h1 : 1 ≤ e) (h2 : e ≤ 4095) :
    (req.retType.signed = true →
      (Capable.dispatch b os req w).1 < 0 ∧ |(Capable.dispatch b os req w).1| = e) ∧
    (req = .geteuid ∨ req = .getegid →
      (Capable.dispatch b os req w).1 = 2 ^ 32 - e ∧ 0 < (Capable.dispatch b os req w).1 ∧
      CType.int.cast (Capable.dispatch b os req w).1 = -e) := by
  rw [dispatch_fst b hb, hfail, he, encode_sentinel]
  constructor
  · intro hs
    rw [signed_negated req hs e h1 (by omega)]
    refine ⟨by omega, ?_⟩
    rw [abs_neg, abs_of_pos (by omega)]
  · intro hreq
    have ht : req.retType = ⟨32, false⟩ := by
      rcases hreq with h | h <;> rw [h] <;> rfl
    rw [ht, (negated_errno e h1 (by omega)).2.2.1, CType.int, cast_s32]
    refine ⟨by norm_num, by omega, by omega⟩

/-- C1, witness: `close(3)` failing with `EBADF = 9` on a Linux build. -/
theorem failure_returns_negated_errno_witness :
    (Call.retType (.close 3)).signed = true ∧
    (Capable.dispatch linuxBuild (sampleOS (-1) 9 none) (.close 3) (World.start 0)).1 < 0 ∧
    |(Capable.dispatch linuxBuild (sampleOS (-1) 9 none) (.close 3) (World.start 0)).1| = 9 :=
  ⟨rfl, (failure_returns_negated_errno linuxBuild rfl (sampleOS (-1) 9 none) (.close 3)
    (World.start 0) 9 (by decide) (by decide) (by decide) (by decide)).1 rfl⟩

/-- C1 as stated fails at `geteuid`: with the operation returning the sentinel `(uid_t) -1`
and `errno = 13`, the entry point returns `4294967283`, which read as a `uid_t` is not
negative. -/
theorem geteuid_failure_is_not_negative :
    rawResult (sampleOS 4294967295 13 none) .geteuid (World.start 0)
      = (Call.retType .geteuid).cast (-1) ∧
    rawErrno (sampleOS 4294967295 13 none) .geteuid (World.start 0) = 13 ∧
    (Capable.dispatch linuxBuild (sampleOS 4294967295 13 none) .geteuid (World.start 0)).1
      = 4294967283 ∧
    ¬ (Capable.dispatch linuxBuild (sampleOS 4294967295 13 none) .geteuid (World.start 0)).1
      < 0 := by
  decide

theorem cast_of_inRange (req : Call) (r : Int) (hr : req.retType.InRange r) :
    req.retType.cast r = r := by
  rcases retType_cases req with h | h | ⟨h, _⟩ | ⟨h, _⟩
  · rw [h] at hr ⊢; rw [cast_s32]; simp [CType.InRange] at hr; omega
  · rw [h] at hr ⊢; rw [cast_s64]; simp [CType.InRange] at hr; omega
  · rw [h] at hr ⊢; rw [cast_u32]; simp [CType.InRange] at hr; omega
  · rw [h] at hr ⊢; rw [cast_u64]; simp [CType.InRange] at hr; omega

/-- C2. In the Linux branch, for every entry point (`mmap` included) and every value `r` of
its return type that the operation returns, if `r` differs from the sentinel `(type) -1` the
entry point returns `r`, whatever the operation left in `errno`; a negative `r` other than
`-1` is returned as it is. -/
theorem success_returns_raw_result (b : Build) (hb : b.linux = true) (os : OS κ) (req : Call)
    (w : World κ) (r : Int) (hr : req.retType.InRange r)
    (hos : (os.syscall req w.kernel w.errno).1 = r) (hne : r ≠ req.retType.cast (-1)) :
    (Capable.dispatch b os req w).1 = r := by
  have hraw : rawResult os req w = r := by
    unfold rawResult; rw [hos]; exact cast_of_inRange req r hr
  rw [dispatch_fst b hb, hraw, encode_other _ _ _ hne]

/-- C2, witness: `lseek` returning `-7` with `errno = 22` left behind returns `-7`. -/
theorem success_returns_raw_result_witness :
    (Capable.dispatch linuxBuild (sampleOS (-7) 22 none) (.lseek 3 0 1) (World.start 0)).1
      = -7 :=
  success_returns_raw_result linuxBuild rfl (sampleOS (-7) 22 none) (.lseek 3 0 1)
    (World.start 0) (-7) (by decide) rfl (by decide)

theorem dispatch_errno (b : Build) (os : OS κ) (req : Call) (w : World κ) :
    (Capable.dispatch b os req w).2.errno = w.errno := by
  cases req <;> first
    | rfl
    | (cases hb : b.linux <;>
        simp [Capable.dispatch, Capable.__sulong_posix_dup3, Capable.__sulong_posix_pipe2,
          Capable.__sulong_posix_sendfile, hb, CALL_errno])

/-- C3. For every entry point of the Linux branch, every argument tuple and every outcome of
the operation, `errno` when the entry point returns equals `errno` when it was entered; hence
after any finite sequence of calls `errno` equals its value before the sequence. -/
theorem errno_is_restored (b : Build) (os : OS κ) :
    (∀ (req : Call) (w : World κ), (Capable.dispatch b os req w).2.errno = w.errno) ∧
    (∀ (reqs : List Call) (w : World κ), (runAll b os reqs w).errno = w.errno) := by
  refine ⟨dispatch_errno b os, ?_⟩
  intro reqs
  induction reqs with
  | nil => intro w; rfl
  | cons req rest ih =>
    intro w
    rw [runAll, ih, dispatch_errno]

theorem outcome_eq_decode (b : Build) (hb : b.linux = true) (os : OS κ) (req : Call)
    (w : World κ) (hs : req.retType.signed = true)
    (hsucc : rawResult os req w ≠ -1 → 0 ≤ rawResult os req w)
    (hfail : rawResult os req w = -1 → 0 < rawErrno os req w) :
    decode (Capable.dispatch b os req w).1 = outcome os req w := by
  have hr := rawErrno_range os req w
  rw [dispatch_fst b hb]
  unfold encode outcome decode
  rw [signed_sentinel req hs]
  by_cases h : rawResult os req w = -1
  · have he := hfail h
    rw [if_pos h, if_pos h, signed_negated req hs _ (by omega) hr.2, if_pos (by omega)]
    simp
  · have hv := hsucc h
    rw [if_neg h, if_neg h, if_neg (by omega)]

/-- C4. For every entry point of the Linux branch with a signed return type (`int`, `ssize_t`,
`off_t`), provided a successful raw result is non-negative and `errno` after a sentinel
failure is positive: the returned value is negative exactly when the operation failed, and
then its negation is the cause; it is non-negative exactly when the operation succeeded, and
then it is the raw result.  The value alone determines the outcome (`decode`), so the
encoding is injective on such outcomes. -/
theorem result_determines_outcome (b : Build) (hb : b.linux = true) (os : OS κ) (req : Call)
    (w : World κ) (hs : req.retType.signed = true)
    (hsucc : rawResult os req w ≠ -1 → 0 ≤ rawResult os req w)
    (hfail : rawResult os req w = -1 → 0 < rawErrno os req w) :
    ((Capable.dispatch b os req w).1 < 0 ↔ rawResult os req w = -1) ∧
    (rawResult os req w = -1 → -(Capable.dispatch b os req w).1 = rawErrno os req w) ∧
    (0 ≤ (Capable.dispatch b os req w).1 ↔ rawResult os req w ≠ -1) ∧
    (rawResult os req w ≠ -1 → (Capable.dispatch b os req w).1 = rawResult os req w) ∧
    decode (Capable.dispatch b os req w).1 = outcome os req w ∧
    ∀ (os₂ : OS κ) (req₂ : Call) (w₂ : World κ), req₂.retType.signed = true →
      (rawResult os₂ req₂ w₂ ≠ -1 → 0 ≤ rawResult os₂ req₂ w₂) →
      (rawResult os₂ req₂ w₂ = -1 → 0 < rawErrno os₂ req₂ w₂) →
      (Capable.dispatch b os req w).1 = (Capable.dispatch b os₂ req₂ w₂).1 →
      outcome os req w = outcome os₂ req₂ w₂ := by
  have hdec := outcome_eq_decode b hb os req w hs hsucc hfail
  have hr := rawErrno_range os req w
  have hres := dispatch_fst b hb os req w
  unfold encode at hres
  rw [signed_sentinel req hs] at hres
  refine ⟨?_, ?_, ?_, ?_, hdec, ?_⟩
  · by_cases h : rawResult os req w = -1
    · have he := hfail h
      rw [if_pos h, signed_negated req hs _ (by omega) hr.2] at hres
      constructor <;> intro _ <;> omega
    · have hv := hsucc h
      rw [if_neg h] at hres
      constructor <;> intro _ <;> omega
  · intro h
    have he := hfail h
    rw [if_pos h, signed_negated req hs _ (by omega) hr.2] at hres
    omega
  · by_cases h : rawResult os req w = -1
    · have he := hfail h
      rw [if_pos h, signed_negated req hs _ (by omega) hr.2] at hres
      constructor <;> intro _ <;> omega
    · have hv := hsucc h
      rw [if_neg h] at hres
      constructor <;> intro _ <;> omega
  · intro h
    rw [if_neg h] at hres
    exact hres
  · intro os₂ req₂ w₂ hs₂ hsucc₂ hfail₂ heq
    rw [← hdec, ← outcome_eq_decode b hb os₂ req₂ w₂ hs₂ hsucc₂ hfail₂, heq]

/-- C4, witness: `open` failing with `ENOENT = 2` returns `-2`, and `-2` decodes to that
failure. -/
theorem result_determines_outcome_witness :
    decode (Capable.dispatch linuxBuild (sampleOS (-1) 2 none) (.open 4096 0 0)
      (World.start 0)).1 = outcome (sampleOS (-1) 2 none) (.open 4096 0 0) (World.start 0) :=
  (result_determines_outcome linuxBuild rfl (sampleOS (-1) 2 none) (.open 4096 0 0)
    (World.start 0) rfl (by decide) (by decide)).2.2.2.2.1

/-- C5, as amended. In the Linux branch, whenever `mmap` returns `MAP_FAILED = (void*) -1` and
leaves a positive `errno = e`, `__sulong_posix_mmap` returns the pointer `(void*) (long) -e`,
the address `2 ^ 64 - e`; that is `(void*) -1` exactly when `e = 1`. -/
theorem mmap_sentinel_becomes_negated_errno (b : Build) (hb : b.linux = true) (os : OS κ)
    (addr length prot flags fd offset : Int) (w : World κ) (e : Int)
    (hfail : rawResult os (.mmap addr length prot flags fd offset) w
      = CType.void_ptr.cast (-1))
    (he : rawErrno os (.mmap addr length prot flags fd offset) w = e) (h1 : 1 ≤ e) :
    (Capable.dispatch b os (.mmap addr length prot flags fd offset) w).1 = 2 ^ 64 - e ∧
    ((Capable.dispatch b os (.mmap addr length prot flags fd offset) w).1
      = CType.void_ptr.cast (-1) ↔ e = 1) := by
  have hr := rawErrno_range os (.mmap addr length prot flags fd offset) w
  have hres := dispatch_fst b hb os (.mmap addr length prot flags fd offset) w
  have ht : Call.retType (.mmap addr length prot flags fd offset) = ⟨64, false⟩ := rfl
  rw [ht] at hres
  rw [hfail, he, CType.void_ptr, encode_sentinel,
    (negated_errno e h1 (by omega)).2.2.2] at hres
  rw [hres, CType.void_ptr, cast_u64]
  constructor
  · norm_num
  · constructor <;> intro _ <;> omega

/-- C5, witness: `mmap` failing with `EPERM = 1` is the one failure returned as
`(void*) -1`. -/
theorem mmap_sentinel_becomes_negated_errno_witness :
    (Capable.dispatch linuxBuild (sampleOS 18446744073709551615 1 none)
      (.mmap 0 4096 3 34 (-1) 0) (World.start 0)).1 = 2 ^ 64 - 1 :=
  (mmap_sentinel_becomes_negated_errno linuxBuild rfl (sampleOS 18446744073709551615 1 none)
    0 4096 3 34 (-1) 0 (World.start 0) 1 (by decide) (by decide) (by decide)).1

/-- C5 as stated fails: `mmap` returning `MAP_FAILED` with `errno = ENOMEM = 12` makes the
entry point return the address `2 ^ 64 - 12`, not the sentinel `(void*) -1`. -/
theorem mmap_failure_is_not_MAP_FAILED :
    rawResult (sampleOS 18446744073709551615 12 none) (.mmap 0 4096 3 34 (-1) 0)
      (World.start 0) = CType.void_ptr.cast (-1) ∧
    rawErrno (sampleOS 18446744073709551615 12 none) (.mmap 0 4096 3 34 (-1) 0)
      (World.start 0) = 12 ∧
    (Capable.dispatch linuxBuild (sampleOS 18446744073709551615 12 none)
      (.mmap 0 4096 3 34 (-1) 0) (World.start 0)).1 = 18446744073709551604 ∧
    (Capable.dispatch linuxBuild (sampleOS 18446744073709551615 12 none)
      (.mmap 0 4096 3 34 (-1) 0) (World.start 0)).1 ≠ CType.void_ptr.cast (-1) := by
  decide

/-- C9. In the Linux branch every entry point `__sulong_posix_X(a1, ..., an)` invokes the
operation `X` once, with its own arguments in order and unchanged, and nothing else: the
trace grows by exactly that invocation, the state left is the one that invocation left,
nothing is printed, and the value returned is the encoding of that invocation's raw result
and `errno`. -/
theorem binding_invokes_operation_once (b : Build) (hb : b.linux = true) (os : OS κ)
    (req : Call) (w : World κ) :
    posix b os req w = some (Capable.dispatch b os req w) ∧
    (Capable.dispatch b os req w).2.trace = w.trace ++ [req] ∧
    (Capable.dispatch b os req w).2.kernel = (os.syscall req w.kernel w.errno).2.2 ∧
    (Capable.dispatch b os req w).2.stderr = w.stderr ∧
    (Capable.dispatch b os req w).1
      = encode req.retType (rawResult os req w) (rawErrno os req w) := by
  refine ⟨by simp [posix, hb], ?_, ?_, ?_, dispatch_fst b hb os req w⟩
  · rw [dispatch_eq_CALL b hb, CALL_trace]
  · rw [dispatch_eq_CALL b hb, CALL_kernel]
  · rw [dispatch_eq_CALL b hb, CALL_stderr]

/-- C9, witness: `renameat(3, 4096, 5, 8192)` on a Linux build invokes `renameat` with these
four arguments, once. -/
theorem binding_invokes_operation_once_witness :
    (Capable.dispatch linuxBuild (sampleOS 0 0 none) (.renameat 3 4096 5 8192)
      (World.start 0)).2.trace = [] ++ [.renameat 3 4096 5 8192] :=
  (binding_invokes_operation_once linuxBuild rfl (sampleOS 0 0 none) (.renameat 3 4096 5 8192)
    (World.start 0)).2.1

/-! ## The branch compiled without `__linux__` -/

theorem stub_dispatch_cases (b : Build) (os : OS κ) (req : Call) (w : World κ) :
    Stub.dispatch b os req w = none ∨
    Stub.dispatch b os req w = some (ERROR b os req.retType w) := by
  cases req <;> simp [Stub.dispatch, Call.retType,
    Stub.__sulong_posix_open, Stub.__sulong_posix_close, Stub.__sulong_posix_read,
    Stub.__sulong_posix_write, Stub.__sulong_posix_readv, Stub.__sulong_posix_writev,
    Stub.__sulong_posix_dup, Stub.__sulong_posix_dup2, Stub.__sulong_posix_dup3,
    Stub.__sulong_posix_fcntl, Stub.__sulong_posix_ioctl, Stub.__sulong_posix_stat,
    Stub.__sulong_posix_fstat, Stub.__sulong_posix_lstat, Stub.__sulong_posix_sendfile,
    Stub.__sulong_posix_mmap, Stub.__sulong_posix_munmap, Stub.__sulong_posix_unlink,
    Stub.__sulong_posix_socket, Stub.__sulong_posix_pipe, Stub.__sulong_posix_bind,
    Stub.__sulong_posix_getsockname, Stub.__sulong_posix_getsockopt,
    Stub.__sulong_posix_setsockopt, Stub.__sulong_posix_sendto, Stub.__sulong_posix_sendmsg,
    Stub.__sulong_posix_recvfrom, Stub.__sulong_posix_recvmsg, Stub.__sulong_posix_listen,
    Stub.__sulong_posix_connect, Stub.__sulong_posix_getuid, Stub.__sulong_posix_getgid,
    Stub.__sulong_posix_lseek, Stub.__sulong_posix_setuid, Stub.__sulong_posix_setgid,
    Stub.__sulong_posix_geteuid, Stub.__sulong_posix_getegid, Stub.__sulong_posix_access,
    Stub.__sulong_posix_faccessat, Stub.__sulong_posix_rename, Stub.__sulong_posix_renameat]

/-- C6, as amended. In the branch compiled without `__linux__`, every entry point it defines
returns, for every argument tuple, `-ENOSYS` converted to its return type, which is `-ENOSYS`
itself for `int`, `ssize_t` and `off_t`: a constant that depends on no argument, not on
`errno` and not on the state.  No catalog operation is invoked; the diagnostic line is
handed to `fprintf`.  The entry point neither saves nor restores `errno`: on return `errno`
is what `fprintf` left, hence unchanged when `fprintf` leaves it unchanged. -/
theorem stub_returns_ENOSYS (b : Build) (os : OS κ) (req : Call) (w : World κ) (r : Int)
    (w' : World κ) (h : Stub.dispatch b os req w = some (r, w')) :
    r = req.retType.cast (CType.int.cast (-b.ENOSYS)) ∧
    (req.retType.signed = true → 1 ≤ b.ENOSYS → b.ENOSYS ≤ 4095 → r = -b.ENOSYS) ∧
    w'.trace = w.trace ∧
    w'.stderr = w.stderr ++ [diagnostic] ∧
    w'.kernel = (os.fprintf diagnostic w.kernel w.errno).2 ∧
    w'.errno = CType.int.cast (os.fprintf diagnostic w.kernel w.errno).1 ∧
    ((os.fprintf diagnostic w.kernel w.errno).1 = w.errno → CType.int.InRange w.errno →
      w'.errno = w.errno) := by
  rcases stub_dispatch_cases b os req w with h0 | h1
  · rw [h0] at h; cases h
  · rw [h1] at h
    have hp : ERROR b os req.retType w = (r, w') := Option.some.inj h
    have hr : r = (ERROR b os req.retType w).1 := by rw [hp]
    have hw : w' = (ERROR b os req.retType w).2 := by rw [hp]
    subst hr hw
    refine ⟨rfl, ?_, rfl, rfl, rfl, rfl, ?_⟩
    · intro hs h1 h2
      show req.retType.cast (CType.int.cast (-b.ENOSYS)) = -b.ENOSYS
      have hi : CType.int.cast (-b.ENOSYS) = -b.ENOSYS := by
        rw [CType.int, cast_s32]; omega
      rw [hi]
      rcases signed_cases req hs with ht | ht
      · rw [ht, cast_s32]; omega
      · rw [ht, cast_s64]; omega
    · intro he hin
      show CType.int.cast (os.fprintf diagnostic w.kernel w.errno).1 = w.errno
      rw [he, CType.int, cast_s32]
      simp [CType.InRange, CType.int] at hin
      omega

/-- C6, witness: `read` on a build without `__linux__` where `ENOSYS = 78`. -/
theorem stub_returns_ENOSYS_witness :
    (-78 : Int) = (Call.retType (.read 3 4096 16)).cast (CType.int.cast (-otherBuild.ENOSYS)) :=
  (stub_returns_ENOSYS otherBuild (sampleOS 0 0 none) (.read 3 4096 16) (World.start 0) (-78)
    ⟨0, (), [], [diagnostic]⟩ (by decide)).1

/-- C6 as stated fails on `errno`: when the diagnostic cannot be written (standard error
closed, `fprintf` leaving `errno = EBADF = 9`), `close` entered with `errno = 0` returns
with `errno = 9`. -/
theorem stub_leaves_errno_changed :
    (World.start 0).errno = 0 ∧
    (Stub.dispatch otherBuild (sampleOS 0 0 (some 9)) (.close 3) (World.start 0)).map
      (fun p => (p.1, p.2.errno)) = some (-78, 9) := by
  decide

theorem capable_declares_every_operation (req : Call) :
    capableDecls.any (fun d => d.name == req.name) = true := by
  cases req <;> (simp only [Call.name]; decide)

theorem stub_defined_iff_declared (b : Build) (os : OS κ) (req : Call) (w : World κ) :
    (Stub.dispatch b os req w).isSome = stubDecls.any (fun d => d.name == req.name) := by
  cases req <;> (simp only [Call.name, Stub.dispatch, Option.isSome]; decide)

/-- C7. The branch compiled without `__linux__` defines 41 of the 44 entry points of the
Linux branch, each with the same prototype, and none of its own; `pipe2`, `accept` and
`ftruncate` are missing from it, so a request for one of them finds no entry point. -/
theorem stub_lacks_three_entry_points :
    capableDecls.length = 44 ∧ stubDecls.length = 41 ∧
    capableDecls.filter (fun d => !stubDecls.contains d)
      = [⟨"pipe2", .int, [.int_array2, .int]⟩,
         ⟨"accept", .int, [.int, .sockaddr_ptr_restrict, .socklen_t_ptr_restrict]⟩,
         ⟨"ftruncate", .int, [.int, .off_t]⟩] ∧
    stubDecls.filter (fun d => !capableDecls.contains d) = [] ∧
    (posix otherBuild (sampleOS 0 0 none) (.pipe2 4096 0) (World.start 0)).isNone = true ∧
    (posix otherBuild (sampleOS 0 0 none) (.accept 3 0 0) (World.start 0)).isNone = true ∧
    (posix otherBuild (sampleOS 0 0 none) (.ftruncate 3 0) (World.start 0)).isNone = true := by
  decide

/-- C8, as amended. In a build without `__linux__`, `__sulong_posix_dup3(oldfd, newfd, flags)`
returns the same value and has the same effect as that build's
`__sulong_posix_dup2(oldfd, newfd)`, whatever the flags: each hands the diagnostic to
`fprintf` and returns `-ENOSYS`, and neither invokes `dup2` or any other operation. -/
theorem dup3_without_linux_is_the_stub (b : Build) (hb : b.linux = false) (os : OS κ)
    (oldfd newfd flags : Int) (w : World κ) :
    posix b os (.dup3 oldfd newfd flags) w = posix b os (.dup2 oldfd newfd) w ∧
    posix b os (.dup3 oldfd newfd flags) w = some (ERROR b os CType.int w) ∧
    (ERROR b os CType.int w).1 = CType.int.cast (CType.int.cast (-b.ENOSYS)) ∧
    (ERROR b os CType.int w).2.trace = w.trace ∧
    (ERROR b os CType.int w).2.stderr = w.stderr ++ [diagnostic] := by
  refine ⟨?_, ?_, rfl, rfl, rfl⟩ <;>
    simp [posix, hb, Stub.dispatch, Stub.__sulong_posix_dup3, Stub.__sulong_posix_dup2]

/-- C8, witness: `dup3(3, 4, 0)` and `dup2(3, 4)` on a build without `__linux__`. -/
theorem dup3_without_linux_is_the_stub_witness :
    posix otherBuild (sampleOS 4 0 none) (.dup3 3 4 0) (World.start 0)
      = posix otherBuild (sampleOS 4 0 none) (.dup2 3 4) (World.start 0) :=
  (dup3_without_linux_is_the_stub otherBuild rfl (sampleOS 4 0 none) 3 4 0 (World.start 0)).1

/-- C8 as stated fails: on a build without `__linux__`, with an operating system whose `dup2`
would succeed and return `4`, `__sulong_posix_dup3(3, 4, 0)` returns `-ENOSYS` and invokes
nothing, where `CALL(int, dup2, 3, 4)` returns `4` after invoking `dup2(3, 4)`; and there is
no `__sulong_posix_pipe2` at all. -/
theorem dup3_without_linux_is_not_dup2 :
    (posix otherBuild (sampleOS 4 0 none) (.dup3 3 4 0) (World.start 0)).map
      (fun p => (p.1, p.2.trace)) = some (-78, []) ∧
    (Capable.__sulong_posix_dup2 (sampleOS 4 0 none) 3 4 (World.start 0)).1 = 4 ∧
    (Capable.__sulong_posix_dup2 (sampleOS 4 0 none) 3 4 (World.start 0)).2.trace
      = [.dup2 3 4] ∧
    (posix otherBuild (sampleOS 4 0 none) (.pipe2 4096 0) (World.start 0)).isNone = true := by
  decide

/-! ## The acceptance program -/

theorem check_no_overflow (x : Bool) (A B : Int) (h : A = B) :
    (if x = true then -1 else A) = (if (x == false) = true then B else -1) := by
  cases x <;> simp [h]

theorem check_overflow (x : Bool) (A B : Int) (h : A = B) :
    (if (!x) = true then -1 else A) = (if (x == true) = true then B else -1) := by
  cases x <;> simp [h]

theorem main_eq_runChecks (ovf : Int → Int → Bool) : main ovf = runChecks ovf checks := by
  simp only [main, checks, runChecks, Check.agrees]
  repeat (first | apply check_no_overflow | apply check_overflow)
  rfl

theorem runChecks_values (ovf : Int → Int → Bool) (cs : List Check) :
    runChecks ovf cs = 0 ∨ runChecks ovf cs = -1 := by
  induction cs with
  | nil => exact Or.inl rfl
  | cons c cs ih =>
    unfold runChecks
    split
    · exact ih
    · exact Or.inr rfl

theorem runChecks_eq_zero (ovf : Int → Int → Bool) (cs : List Check) :
    runChecks ovf cs = 0 ↔ ∀ c ∈ cs, c.agrees ovf = true := by
  induction cs with
  | nil => simp [runChecks]
  | cons c cs ih =>
    unfold runChecks
    by_cases h : c.agrees ovf = true
    · simp [h, ih]
    · simp [h]

theorem cast_short_inRange (v : Int) : CType.short.InRange (CType.short.cast v) := by
  simp only [CType.InRange, CType.cast, CType.short]
  norm_num
  omega

/-- C10. The program makes 24 checks, on 24 different operand pairs, each expecting overflow
exactly when the reference semantics reports it on the converted operands; so `main` returns
`0` for the reference intrinsic, and for every intrinsic that agrees with it on 16-bit
operands.  For an arbitrary intrinsic `main` returns `0` or `-1`: `0` exactly when every check
is answered as expected, `-1` exactly when some check is not. -/
theorem main_returns_zero_iff_all_checks_agree :
    checks.length = 24 ∧
    (checks.map (fun c => (CType.short.cast c.a, CType.short.cast c.b))).Nodup ∧
    (∀ c ∈ checks,
      c.expectOverflow = refMulOverflow (CType.short.cast c.a) (CType.short.cast c.b)) ∧
    main refMulOverflow = 0 ∧
    ∀ ovf : Int → Int → Bool,
      ((∀ a b, CType.short.InRange a → CType.short.InRange b → ovf a b = refMulOverflow a b) →
        main ovf = 0) ∧
      (main ovf = 0 ∨ main ovf = -1) ∧
      (main ovf = 0 ↔ ∀ c ∈ checks, c.agrees ovf = true) ∧
      (main ovf = -1 ↔ ∃ c ∈ checks, c.agrees ovf = false) := by
  have hexp : ∀ c ∈ checks,
      c.expectOverflow = refMulOverflow (CType.short.cast c.a) (CType.short.cast c.b) := by
    decide
  refine ⟨rfl, by decide, hexp, by decide, ?_⟩
  intro ovf
  have hv := runChecks_values ovf checks
  have hz := runChecks_eq_zero ovf checks
  rw [main_eq_runChecks]
  refine ⟨?_, hv, hz, ?_⟩
  · intro href
    apply hz.mpr
    intro c hc
    unfold Check.agrees
    rw [href _ _ (cast_short_inRange _) (cast_short_inRange _), hexp c hc]
    simp
  constructor
  · intro h
    by_contra hne
    have hall : ∀ c ∈ checks, c.agrees ovf = true := by
      intro c hc
      by_contra hc2
      exact hne ⟨c, hc, by simpa using hc2⟩
    have := hz.mpr hall
    omega
  · rintro ⟨c, hc, hf⟩
    rcases hv with h0 | h1
    · have := hz.mp h0 c hc
      rw [hf] at this
      cases this
    · exact h1

end Sulong
